import Mathlib

/-!
Verification of the my_trades package: a shallow embedding in Lean of the
symbol decoder, currency parser, transaction id generator, gain/loss
classification, date-range matcher, SQL filter builders and trade-store
conversions, together with theorems settling the specification claims.

Decimal values are modelled as rationals, Python dates as year/month/day
records, Python strings as Lean strings (lists of characters), and Python
exceptions as an explicit error type: functions that can raise return
`Res`.
-/

set_option maxRecDepth 8000

namespace MyTrades

/-- The Python exception kinds that the embedded code can raise. -/
inductive Err where
  | valueError
  | indexError
  | nameError
  | typeError
  | invalidOperation
  | attributeError
deriving DecidableEq, Repr

/-- Result of running a piece of Python code: a value or a raised exception. -/
inductive Res (α : Type) where
  | ok (val : α)
  | err (e : Err)
deriving DecidableEq, Repr

/-! ## String constants -/

def emptyStr : String := ""
def dashStr : String := "-"
def dotStr : String := "."
def quoteStr : String := "'"
def commaStr : String := ","
def commaSpaceStr : String := ", "
def closeParenStr : String := ")"
def dollarStr : String := "$"
def openParenDollarStr : String := "($"

/-! ## Calendar dates (datetime.date) -/

structure Date where
  year : ℕ
  month : ℕ
  day : ℕ
deriving DecidableEq, Repr

/-- Gregorian leap-year rule, as used by datetime. -/
def isLeapYear (y : ℕ) : Bool :=
  (y % 4 == 0 && y % 100 != 0) || y % 400 == 0

def daysInMonth (y m : ℕ) : ℕ :=
  if m = 2 then (if isLeapYear y then 29 else 28)
  else if m = 4 ∨ m = 6 ∨ m = 9 ∨ m = 11 then 30
  else 31

def daysBeforeMonth (y m : ℕ) : ℕ :=
  (List.range (m - 1)).foldl (fun acc i => acc + daysInMonth y (i + 1)) 0

/-- Proleptic Gregorian ordinal of a date (the value of date.toordinal;
day 1 is 0001-01-01).  Date subtraction in the source, which yields a
timedelta, is modelled as the difference of ordinals. -/
def toOrdinal (d : Date) : ℕ :=
  let py := d.year - 1
  365 * py + py / 4 - py / 100 + py / 400 + daysBeforeMonth d.year d.month + d.day

/-- Python compares dates componentwise (year, then month, then day). -/
def dateLe (a b : Date) : Bool :=
  decide (a.year < b.year ∨ (a.year = b.year ∧
    (a.month < b.month ∨ (a.month = b.month ∧ a.day ≤ b.day))))

/-- The day after `d` (rolling over months and years). -/
def nextDay (d : Date) : Date :=
  if d.day < daysInMonth d.year d.month then ⟨d.year, d.month, d.day + 1⟩
  else if d.month < 12 then ⟨d.year, d.month + 1, 1⟩
  else ⟨d.year + 1, 1, 1⟩

/-- The day before `d`. -/
def prevDay (d : Date) : Date :=
  if 1 < d.day then ⟨d.year, d.month, d.day - 1⟩
  else if 1 < d.month then ⟨d.year, d.month - 1, daysInMonth d.year (d.month - 1)⟩
  else ⟨d.year - 1, 12, 31⟩

/-- `d + relativedelta(days=n)`: pure day arithmetic. -/
def addDays (d : Date) (n : ℕ) : Date := nextDay^[n] d

/-- `d + relativedelta(days=-n)`. -/
def subDays (d : Date) (n : ℕ) : Date := prevDay^[n] d

/-! ## Characters, digits, decimal printing and parsing -/

def charVal (c : Char) : ℕ := c.toNat - 48

def digitChar (n : ℕ) : Char := Char.ofNat (48 + n)

/-- Value of a big-endian digit string. -/
def digitsVal (cs : List Char) : ℕ :=
  cs.foldl (fun a c => 10 * a + charVal c) 0

def allDigits (cs : List Char) : Bool := cs.all Char.isDigit

/-- Decimal printing of a natural number (fuelled division loop). -/
def printNatAux : ℕ → ℕ → List Char
  | 0, _ => []
  | fuel + 1, n =>
    if n < 10 then [digitChar n]
    else printNatAux fuel (n / 10) ++ [digitChar (n % 10)]

def printNat (n : ℕ) : List Char := printNatAux (n + 1) n

/-- Zero-pad to width 2: the {:02d} format specifier. -/
def pad2 (n : ℕ) : List Char := if n < 10 then '0' :: printNat n else printNat n

/-- Zero-pad to width 4 (year field of str(date)). -/
def pad4 (n : ℕ) : List Char :=
  List.replicate (4 - (printNat n).length) '0' ++ printNat n

/-- Split a character list at every occurrence of `sep` (str.split(sep)). -/
def splitOnChar (sep : Char) : List Char → List (List Char)
  | [] => [[]]
  | c :: rest =>
    let r := splitOnChar sep rest
    if c = sep then [] :: r
    else
      match r with
      | [] => [[c]]
      | h :: t => (c :: h) :: t

/-- str.strip(): remove leading and trailing whitespace. -/
def pyStripChars (cs : List Char) : List Char :=
  ((cs.dropWhile Char.isWhitespace).reverse.dropWhile Char.isWhitespace).reverse

def pyStrip (s : String) : String := String.mk (pyStripChars s.data)

/-- Decimal(body) for an unsigned body: digits with at most one point and
at least one digit; anything else raises InvalidOperation.  The value of
IPART.FPART is the exact rational (IPART·10^k + FPART) / 10^k where k is
the number of fractional digits. -/
def parseUnsignedDecimal (body : List Char) : Res ℚ :=
  match splitOnChar '.' body with
  | [intPart] =>
    if intPart ≠ [] ∧ allDigits intPart then .ok (mkRat (digitsVal intPart) 1)
    else .err .invalidOperation
  | [intPart, fracPart] =>
    if (intPart ≠ [] ∨ fracPart ≠ []) ∧ allDigits intPart ∧ allDigits fracPart then
      .ok (mkRat (digitsVal intPart * 10 ^ fracPart.length + digitsVal fracPart)
            (10 ^ fracPart.length))
    else .err .invalidOperation
  | _ => .err .invalidOperation

/-- Decimal(s): optional sign followed by an unsigned decimal literal. -/
def parseDecimal (cs : List Char) : Res ℚ :=
  match cs with
  | '-' :: r =>
    match parseUnsignedDecimal r with
    | .ok q => .ok (-q)
    | .err e => .err e
  | '+' :: r => parseUnsignedDecimal r
  | r => parseUnsignedDecimal r

/-- datetime.strptime(value, yymmdd).date(): two-digit year (00-68 maps to
20yy, 69-99 to 19yy), then month and day, all validated. -/
def parse_yymmdd (cs : List Char) : Res Date :=
  match cs with
  | [y1, y2, m1, m2, d1, d2] =>
    if allDigits [y1, y2, m1, m2, d1, d2] then
      let yy := 10 * charVal y1 + charVal y2
      let year := if yy ≤ 68 then 2000 + yy else 1900 + yy
      let month := 10 * charVal m1 + charVal m2
      let day := 10 * charVal d1 + charVal d2
      if 1 ≤ month ∧ month ≤ 12 ∧ 1 ≤ day ∧ day ≤ daysInMonth year month then
        .ok ⟨year, month, day⟩
      else .err .valueError
    else .err .valueError
  | _ => .err .valueError

/-! ## Instruments and transactions (record.py) -/

/-- The holding hierarchy of record.py: Stock, and the Option subclasses
Call and Put (each carrying strike and expiration). -/
inductive Holding where
  | stock (symbol : String)
  | call (symbol : String) (strike : ℚ) (expiration : Date)
  | put (symbol : String) (strike : ℚ) (expiration : Date)
deriving DecidableEq, Repr

/-- isinstance(h, Option): true for Call and Put, false for Stock. -/
def Holding.isOption : Holding → Bool
  | .stock _ => false
  | .call _ _ _ => true
  | .put _ _ _ => true

def Holding.symbol : Holding → String
  | .stock s => s
  | .call s _ _ => s
  | .put s _ _ => s

/-- The Transaction dataclass of record.py.  The transaction id is kept as
an ordinary field; its generation is modelled separately below. -/
structure Transaction where
  account_number : String
  holding : Holding
  cusip : String
  description : String
  quantity : ℚ
  acquired_date : Date
  sold_date : Date
  cost : ℚ
  proceed : ℚ
  transaction_id : String
deriving DecidableEq, Repr

/-- convert_currency of record.py, on the character list of the input.
value[0] is read first, so the empty string raises IndexError; the
parenthesized branch evaluates Decimal(value[2:-1]), dropping the first
two characters and the last one. -/
def convert_currency_chars (cs : List Char) : Res ℚ :=
  match cs with
  | [] => .err .indexError
  | c :: rest =>
    if c = '$' then parseDecimal rest
    else if c = '(' then
      match parseDecimal ((rest.drop 1).dropLast) with
      | .ok q => .ok (-q)
      | .err e => .err e
    else if c :: rest = ['-'] then .ok 0
    else .err .valueError

def convert_currency (value : String) : Res ℚ :=
  convert_currency_chars value.data

/-- Result tuple of extract_symbol: (symbol, cusip, expiration,
option type, strike). -/
structure SymbolParts where
  symbol : String
  cusip : String
  expiration : Option Date
  option_type : Option Char
  strike : Option ℚ
deriving DecidableEq, Repr

/-- Index of the first character satisfying `p` (the scanning loops of
extract_symbol and str.index). -/
def findIdxFrom (p : Char → Bool) : List Char → Option ℕ
  | [] => none
  | c :: cs => if p c then some 0 else (findIdxFrom p cs).map (· + 1)

def OPTION_TYPES : List Char := ['c', 'p', 'C', 'P']

def lowerChars (cs : List Char) : String := String.mk (cs.map Char.toLower)

/-- The fallback scan of extract_symbol (the loop over
range(digit_start + 7, len(symbol_raw) + 1)).  The loop body tests
symbol_raw[n] in OPTIONS_TYPES, and OPTIONS_TYPES is a name defined
nowhere in the package (the constant defined above the function is
OPTION_TYPES), so the first loop iteration with a valid index raises
NameError; when the first index n equals len(symbol_raw) the subscript
raises IndexError before the name lookup; and when the range is empty the
loop is skipped and ValueError (invalid symbol) is raised. -/
def fallbackScan (symbol_raw : List Char) (digit_start : ℕ) : Res SymbolParts :=
  if digit_start + 7 > symbol_raw.length then .err .valueError
  else if digit_start + 7 = symbol_raw.length then .err .indexError
  else .err .nameError

/-- extract_symbol of record.py.  Note the guard on the fast path is
`digit_start and symbol_raw[digit_start + 6] in OPTION_TYPES`: a first
digit at index 0 is falsy, so that input falls through to the fallback
scan. -/
def extract_symbol (value : String) : Res SymbolParts :=
  match findIdxFrom (· = '(') value.data with
  | none => .err .valueError
  | some cusip_start_pos =>
    let symbol_raw := value.data.take cusip_start_pos
    let cusip := (value.data.drop (cusip_start_pos + 1)).dropLast
    match findIdxFrom Char.isDigit symbol_raw with
    | none => .ok ⟨lowerChars symbol_raw, String.mk cusip, none, none, none⟩
    | some digit_start =>
      if digit_start ≠ 0 then
        if digit_start + 6 < symbol_raw.length then
          let c := symbol_raw.getD (digit_start + 6) 'A'
          if c ∈ OPTION_TYPES then
            match parse_yymmdd ((symbol_raw.drop digit_start).take 6) with
            | .err e => .err e
            | .ok expiration =>
              match parseDecimal (symbol_raw.drop (digit_start + 7)) with
              | .err e => .err e
              | .ok strike =>
                .ok ⟨lowerChars (symbol_raw.take digit_start), String.mk cusip,
                     some expiration, some c.toLower, some strike⟩
          else fallbackScan symbol_raw digit_start
        else .err .indexError
      else fallbackScan symbol_raw digit_start

/-! ## Transaction id generation (record.py, new_transaction_id) -/

/-- str(date): YYYY-MM-DD with zero padding. -/
def dateKeyStr (d : Date) : String :=
  String.mk (pad4 d.year) ++ dashStr ++ String.mk (pad2 d.month) ++ dashStr
    ++ String.mk (pad2 d.day)

/-- The number of cents after the ROUND_HALF_EVEN rounding applied by
formatting a Decimal with {:.2f}: the nearest integer to q·100 with ties
to even, computed on numerator and denominator (f is the floor of q·100
and r2/2d its fractional part). -/
def roundHalfEvenCents (q : ℚ) : ℤ :=
  let n := q.num * 100
  let d := (q.den : ℤ)
  let f := Int.fdiv n d
  let r2 := 2 * (n - f * d)
  if r2 < d then f
  else if d < r2 then f + 1
  else if f % 2 = 0 then f else f + 1

/-- The {:.2f} format applied to a Decimal: two digits after the point,
half-even rounding. -/
def fmt2dec (q : ℚ) : String :=
  let cents := roundHalfEvenCents q
  let sgn := if cents < 0 then dashStr else emptyStr
  let a := cents.natAbs
  sgn ++ String.mk (printNat (a / 100)) ++ dotStr ++ String.mk (pad2 (a % 100))

/-- The registry key of new_transaction_id: the dash-joined format of
(account_number, cusip, acquired_date, sold_date, quantity, cost, proceed)
with the three quantities formatted {:.2f}. -/
def transactionKey (t : Transaction) : String :=
  t.account_number ++ dashStr ++ t.cusip ++ dashStr ++ dateKeyStr t.acquired_date
    ++ dashStr ++ dateKeyStr t.sold_date ++ dashStr ++ fmt2dec t.quantity
    ++ dashStr ++ fmt2dec t.cost ++ dashStr ++ fmt2dec t.proceed

/-- The tuple the specification says the id counter is keyed on. -/
def idTuple (t : Transaction) : String × String × Date × Date × ℚ × ℚ × ℚ :=
  (t.account_number, t.cusip, t.acquired_date, t.sold_date, t.quantity, t.cost,
   t.proceed)

/-- uuid3(NAMESPACE_URL, s) is a fixed deterministic function of its input
string; it is modelled as an injective encoding (the identity), so
distinctness facts hold up to MD5 collisions of distinct inputs. -/
def uuid3 (s : String) : String := s

/-- The {:02d} sequence formatting. -/
def seqFmt (n : ℕ) : List Char := pad2 n

/-- One call of the generate_id closure: the registry (the multiset of
keys already issued, representing the per-key itertools counters) maps the
key to its next sequence number, and is extended. -/
def generate_id (registry : List String) (t : Transaction) :
    String × List String :=
  let key := transactionKey t
  let sequence_id := registry.count key + 1
  (uuid3 (key ++ dashStr ++ String.mk (seqFmt sequence_id)), registry ++ [key])

def runIdsAux (registry : List String) : List Transaction → List String
  | [] => []
  | t :: ts =>
    let p := generate_id registry t
    p.1 :: runIdsAux p.2 ts

/-- The ids assigned over one run (one process): the registry starts
empty, so the result is a pure function of the row sequence. -/
def runIds (ts : List Transaction) : List String := runIdsAux [] ts

/-! ## Gain/loss classification (gain_loss.py) -/

/-- sold_date - acquired_date, in days (a timedelta in the source). -/
def heldDays (t : Transaction) : ℤ :=
  (toOrdinal t.sold_date : ℤ) - (toOrdinal t.acquired_date : ℤ)

/-- ONE_YEAR = timedelta(days=365). -/
def ONE_YEAR : ℤ := 365

def calculate_long_term_gain_loss (accumulator : ℚ) (t : Transaction) : ℚ :=
  if t.holding.isOption then accumulator
  else if heldDays t > ONE_YEAR then accumulator + (t.proceed - t.cost)
  else accumulator

def calculate_short_term_gain_loss (accumulator : ℚ) (t : Transaction) : ℚ :=
  if t.holding.isOption then accumulator + (t.proceed - t.cost)
  else if heldDays t < ONE_YEAR then accumulator + (t.proceed - t.cost)
  else accumulator

/-! ## Date-range matcher and filters (transaction.py) -/

/-- An element of the iterable passed to in_date_range: a (start, end)
tuple with optional bounds, or a single date. -/
inductive DateEntry where
  | range (start_date stop_date : Option Date)
  | single (d : Date)
deriving DecidableEq, Repr

def entryRanges (l : List DateEntry) : List (Option Date × Option Date) :=
  l.filterMap fun e =>
    match e with
    | .range a b => some (a, b)
    | .single _ => none

def entrySingles (l : List DateEntry) : List Date :=
  l.filterMap fun e =>
    match e with
    | .range _ _ => none
    | .single d => some d

/-- One iteration of the range loop inside is_date_in_range.  `some` is an
early exit (a returned boolean or a raised TypeError), `none` continues
with the next range.  A (None, None) entry returns False immediately; an
entry with only an end bound falls through, when the date exceeds the
bound, to the unguarded third comparison date >= None, which raises
TypeError. -/
def rangeCheck (d : Date) : Option Date × Option Date → Option (Res Bool)
  | (none, none) => some (.ok false)
  | (some s, none) => if dateLe s d then some (.ok true) else none
  | (none, some e) => if dateLe d e then some (.ok true) else some (.err .typeError)
  | (some s, some e) => if dateLe s d && dateLe d e then some (.ok true) else none

def scanRanges (d : Date) : List (Option Date × Option Date) → Option (Res Bool)
  | [] => none
  | r :: rs =>
    match rangeCheck d r with
    | some v => some v
    | none => scanRanges d rs

/-- in_date_range of transaction.py: the ranges of the collection are
scanned first (in order), then the exact dates. -/
def in_date_range (filtered_dates : List DateEntry) (date_being_checked : Date) :
    Res Bool :=
  match scanRanges date_being_checked (entryRanges filtered_dates) with
  | some v => v
  | none => .ok (decide (date_being_checked ∈ entrySingles filtered_dates))

/-- A bound of a date-range token: empty means open (None), otherwise the
stripped text must parse as yymmdd. -/
def parseBound (cs : List Char) : Res (Option Date) :=
  if cs = [] then .ok none
  else
    match parse_yymmdd (pyStripChars cs) with
    | .ok d => .ok (some d)
    | .err e => .err e

/-- parse_date of transaction.py: a token with a dash is split into two
optional bounds; otherwise it is a single exact date. -/
def parse_date (date_range : List Char) : Res DateEntry :=
  if '-' ∈ date_range then
    match splitOnChar '-' date_range with
    | [s, e] =>
      match parseBound s with
      | .err er => .err er
      | .ok sd =>
        match parseBound e with
        | .err er => .err er
        | .ok ed => .ok (.range sd ed)
    | _ => .err .valueError
  else
    match parse_yymmdd (pyStripChars date_range) with
    | .ok d => .ok (.single d)
    | .err e => .err e

def DEFAULT_DAY_RANGE : ℕ := 30

/-- The ±30-day wash-sale windows built by filter_transaction_by_dates
around the parsed reference dates. -/
def transaction_period (filtered_dates : List Date) : List DateEntry :=
  filtered_dates.map fun de =>
    .range (some (subDays de DEFAULT_DAY_RANGE)) (some (addDays de DEFAULT_DAY_RANGE))

/-- The transaction_in_filtered_date predicate returned by
filter_transaction_by_dates, parameterized by the parsed reference dates.
For an Option holding only the exact expiration match is consulted; for a
non-option the acquired then the sold date are tested against the ±30-day
windows. -/
def transaction_in_filtered_date (filtered_dates : List Date) (t : Transaction) :
    Res Bool :=
  if filtered_dates.isEmpty then .ok true
  else
    match t.holding with
    | .call _ _ e => .ok (decide (e ∈ filtered_dates))
    | .put _ _ e => .ok (decide (e ∈ filtered_dates))
    | .stock _ =>
      match in_date_range (transaction_period filtered_dates) t.acquired_date with
      | .err e => .err e
      | .ok true => .ok true
      | .ok false => in_date_range (transaction_period filtered_dates) t.sold_date

/-! ## Report aggregation (transaction.py, report_in_text)

record.py defines no wash_sale field on Transaction, yet report_in_text
reads transaction.wash_sale; the specification declares a derived boolean
wash_sale on Transaction.  Report rows are therefore modelled as a
transaction paired with its wash-sale flag. -/

inductive ReportLine where
  | entry (symbol : String) (t : Transaction) (wash_sale : Bool)
  | subtotal (total : ℚ)
  | grandTotal (total : ℚ)
deriving DecidableEq, Repr

/-- The entry rows of one symbol group: the first row carries the symbol,
subsequent rows a blank symbol column; every transaction of the group is
listed, washed or not. -/
def groupLines (symbol : String) (ts : List (Transaction × Bool)) :
    List ReportLine :=
  match ts with
  | [] => []
  | t0 :: rest => .entry symbol t0.1 t0.2 :: rest.map fun p => .entry emptyStr p.1 p.2

/-- The per-group total of report_in_text: gains of rows whose wash_sale
flag is set are skipped. -/
def group_total (ts : List (Transaction × Bool)) : ℚ :=
  ts.foldl (fun acc p => if p.2 then acc else acc + (p.1.proceed - p.1.cost)) 0

/-- report_in_text, reduced to its data content (the fixed header and
separator lines carry no data): the groups in order, each as its entry
rows followed by its subtotal, then the grand total. -/
def report_in_text (result : List (String × List (Transaction × Bool))) :
    List ReportLine :=
  let main := result.foldl
    (fun (acc : List ReportLine × ℚ) g =>
      (acc.1 ++ groupLines g.1 g.2 ++ [.subtotal (group_total g.2)],
       acc.2 + group_total g.2))
    ([], 0)
  main.1 ++ [.grandTotal main.2]

def isEntryLine : ReportLine → Bool
  | .entry _ _ _ => true
  | _ => false

def countEntries (lines : List ReportLine) : ℕ :=
  (lines.filter isEntryLine).length

/-! ## SQL filter builders (transaction.py) -/

def bothStr : String := "both"
def sqlAccountAll : String := "SELECT account_number FROM account"
def sqlAccountWherePrefix : String :=
  "SELECT account_number FROM account\nWHERE account_type = '"
def symbolInPrefix : String := "symbol IN ("

/-- new_account_filter_sql: the account type is interpolated verbatim
between two single quotes. -/
def new_account_filter_sql (account_type : String) : String :=
  if account_type = bothStr then sqlAccountAll
  else sqlAccountWherePrefix ++ account_type ++ quoteStr

/-- new_symbols_filter_sql: each comma-separated token is stripped and
interpolated verbatim between single quotes. -/
def new_symbols_filter_sql (symbols : String) : String :=
  if symbols = emptyStr then emptyStr
  else
    symbolInPrefix
      ++ String.intercalate commaSpaceStr
        ((splitOnChar ',' symbols.data).map fun x =>
          quoteStr ++ String.mk (pyStripChars x) ++ quoteStr)
      ++ closeParenStr

/-! ## Persisted trades (database.py) -/

structure Trade where
  account_number : String
  transaction_id : String
  cusip : String
  symbol : String
  equity_class : String
  strike : ℤ
  quantity : ℤ
  expiration : Option Date
  acquired_date : Date
  sold_date : Date
  cost : ℤ
  proceed : ℤ
  description : String
deriving DecidableEq, Repr

def STOCK_CLASS : String := "stock"
def CALL_CLASS : String := "call"
def PUT_CLASS : String := "put"

/-- int() applied to a Decimal: truncation toward zero. -/
def pyInt (q : ℚ) : ℤ := Int.tdiv q.num q.den

def stock_to_trade (stock : Transaction) : Trade :=
  { account_number := stock.account_number
    transaction_id := stock.transaction_id
    cusip := stock.cusip
    symbol := stock.holding.symbol
    equity_class := STOCK_CLASS
    strike := 0
    quantity := pyInt (stock.quantity * 100)
    expiration := none
    acquired_date := stock.acquired_date
    sold_date := stock.sold_date
    cost := pyInt (stock.cost * 100)
    proceed := pyInt (stock.proceed * 100)
    description := stock.description }

/-- option_to_trade reads holding.strike and holding.expiration, which a
Stock does not have (AttributeError); the class is put for Put and call
otherwise. -/
def option_to_trade (o : Transaction) : Res Trade :=
  match o.holding with
  | .stock _ => .err .attributeError
  | .call s k e =>
    .ok { account_number := o.account_number
          transaction_id := o.transaction_id
          cusip := o.cusip
          symbol := s
          equity_class := CALL_CLASS
          strike := pyInt (k * 100)
          quantity := pyInt (o.quantity * 100)
          expiration := some e
          acquired_date := o.acquired_date
          sold_date := o.sold_date
          cost := pyInt (o.cost * 100)
          proceed := pyInt (o.proceed * 100)
          description := o.description }
  | .put s k e =>
    .ok { account_number := o.account_number
          transaction_id := o.transaction_id
          cusip := o.cusip
          symbol := s
          equity_class := PUT_CLASS
          strike := pyInt (k * 100)
          quantity := pyInt (o.quantity * 100)
          expiration := some e
          acquired_date := o.acquired_date
          sold_date := o.sold_date
          cost := pyInt (o.cost * 100)
          proceed := pyInt (o.proceed * 100)
          description := o.description }

/-- The dispatch of transactions_to_trades: Stock rows through
stock_to_trade, everything else through option_to_trade. -/
def trade_from_transaction (t : Transaction) : Res Trade :=
  match t.holding with
  | .stock _ => .ok (stock_to_trade t)
  | _ => option_to_trade t

/-- Decimal(value) / 100. -/
def _to_decimal (value : ℤ) : ℚ := (value : ℚ) / 100

/-- trade_to_transaction of database.py.  For an option class the source
builds Call/Put(symbol, strike / 100, expiration) from the stored row; a
stored option row always carries a date, and a NULL expiration there would
produce a value outside the record.py type annotations, modelled as a
TypeError. -/
def trade_to_transaction (trade : Trade) : Res Transaction :=
  if trade.equity_class = STOCK_CLASS then
    .ok { account_number := trade.account_number
          holding := .stock trade.symbol
          cusip := trade.cusip
          description := trade.description
          quantity := _to_decimal trade.quantity
          acquired_date := trade.acquired_date
          sold_date := trade.sold_date
          cost := _to_decimal trade.cost
          proceed := _to_decimal trade.proceed
          transaction_id := trade.transaction_id }
  else
    match trade.expiration with
    | some e =>
      if trade.equity_class = CALL_CLASS then
        .ok { account_number := trade.account_number
              holding := .call trade.symbol ((trade.strike : ℚ) / 100) e
              cusip := trade.cusip
              description := trade.description
              quantity := _to_decimal trade.quantity
              acquired_date := trade.acquired_date
              sold_date := trade.sold_date
              cost := _to_decimal trade.cost
              proceed := _to_decimal trade.proceed
              transaction_id := trade.transaction_id }
      else
        .ok { account_number := trade.account_number
              holding := .put trade.symbol ((trade.strike : ℚ) / 100) e
              cusip := trade.cusip
              description := trade.description
              quantity := _to_decimal trade.quantity
              acquired_date := trade.acquired_date
              sold_date := trade.sold_date
              cost := _to_decimal trade.cost
              proceed := _to_decimal trade.proceed
              transaction_id := trade.transaction_id }
    | none => .err .typeError

/-- Mapping a transaction to its persisted trade and back. -/
def trade_round_trip (t : Transaction) : Res Transaction :=
  match trade_from_transaction t with
  | .ok tr => trade_to_transaction tr
  | .err e => .err e

/-- insert_to_db of insert_transactions: the existing transaction ids are
read once, and only trades whose id is not among them are appended to the
trade table. -/
def insert_to_db (store : List Trade) (trades : List Trade) : List Trade :=
  let existing_transaction_ids := store.map Trade.transaction_id
  store ++ trades.filter fun t => !(existing_transaction_ids.contains t.transaction_id)

/-! ## Ingestion loop (record.py, csv_to_transactions) -/

/-- The loop of csv_to_transactions: a row whose processing raises
ValueError is skipped (after a warning), any other exception propagates
and aborts the whole batch. -/
def process_rows {α : Type} : List (Res α) → Res (List α)
  | [] => .ok []
  | r :: rest =>
    match r with
    | .ok a =>
      match process_rows rest with
      | .ok others => .ok (a :: others)
      | .err e => .err e
    | .err .valueError => process_rows rest
    | .err e => .err e

/-! ## Concrete inputs used by witnesses and counterexamples -/

def dummyTransaction : Transaction :=
  { account_number := emptyStr
    holding := .stock emptyStr
    cusip := emptyStr
    description := emptyStr
    quantity := 0
    acquired_date := ⟨1, 1, 1⟩
    sold_date := ⟨1, 1, 1⟩
    cost := 0
    proceed := 0
    transaction_id := emptyStr }

/-- A stock bought 2020-01-01 and sold 2020-12-31: exactly 365 days. -/
def exactYearStock : Transaction :=
  { account_number := "a1"
    holding := .stock "abc"
    cusip := "c1"
    description := "abc stock"
    quantity := 1
    acquired_date := ⟨2020, 1, 1⟩
    sold_date := ⟨2020, 12, 31⟩
    cost := 100
    proceed := 200
    transaction_id := "t1" }

def parenFiftyStr : String := "(50.00)"
def fiftyStr : String := "50.00"
def dollarCommaStr : String := "$1,234.56"

/-- A descriptor whose first digit is at index 0. -/
def zeroDescriptor : String := "140620C15.50(CUSIP123)"

/-- The valid option descriptor of the specification. -/
def exDescriptor : String := "ROOT140620C15.50(CUSIP123)"
def exPreStr : String := "ROOT140620C15.50"
def exIdStr : String := "CUSIP123"
def exRootStr : String := "root"

/-- A descriptor with a digit before the identifier but no option-type
character anywhere. -/
def badDescriptor : String := "AB123456789(X)"

/-- The open-start date filter token of the specification examples. -/
def dashTwoTwoStr : String := "-220101"

/-- The reference-date set of the wash-sale examples: 2021-06-15. -/
def washDates : List Date := [⟨2021, 6, 15⟩]

/-- An equity sold 2021-06-20, five days after the reference date. -/
def washStock : Transaction :=
  { account_number := "a1"
    holding := .stock "abc"
    cusip := "c1"
    description := "abc stock"
    quantity := 1
    acquired_date := ⟨2021, 1, 4⟩
    sold_date := ⟨2021, 6, 20⟩
    cost := 100
    proceed := 200
    transaction_id := "t1" }

/-- A call sold 2021-06-20 (five days after the reference date, inside the
±30-day window) whose expiration 2022-01-01 is not a reference date. -/
def washOption : Transaction :=
  { account_number := "a1"
    holding := .call "abc" (mkRat 5 1) ⟨2022, 1, 1⟩
    cusip := "c1"
    description := "abc call"
    quantity := 1
    acquired_date := ⟨2021, 6, 1⟩
    sold_date := ⟨2021, 6, 20⟩
    cost := 100
    proceed := 200
    transaction_id := "t1" }

/-- Quote-carrying filter values and the query strings they compile to. -/
def injSymbols : String := "x') OR ('1'='1"
def injSymbolsOut : String := "symbol IN ('x') OR ('1'='1')"
def injAccount : String := "x' OR '1'='1"
def injAccountOut : String :=
  "SELECT account_number FROM account\nWHERE account_type = 'x' OR '1'='1'"

/-- Two economically different rows whose registry keys collide: the
quantities 1.001 and 1.004 both format to 1.00 under {:.2f}. -/
def keyCollideA : Transaction :=
  { account_number := "a1"
    holding := .stock "abc"
    cusip := "c1"
    description := "abc stock"
    quantity := mkRat 1001 1000
    acquired_date := ⟨2021, 1, 4⟩
    sold_date := ⟨2021, 6, 20⟩
    cost := 100
    proceed := 200
    transaction_id := emptyStr }

def keyCollideB : Transaction :=
  { keyCollideA with quantity := mkRat 1004 1000 }

end MyTrades

namespace MyTrades

/-! ## Claim C1: holding-period classification -/

/-- C1 (amended): the long-term reducer adds the gain exactly when the
holding is not an option and the holding period strictly exceeds 365 days;
the short-term reducer adds the gain exactly when the holding is an option
or the holding period is strictly below 365 days.  An equity held exactly
365 days is added to neither total. -/
theorem gain_loss_classification (accumulator : ℚ) (t : Transaction) :
    (calculate_long_term_gain_loss accumulator t =
      if t.holding.isOption = false ∧ heldDays t > 365
      then accumulator + (t.proceed - t.cost) else accumulator) ∧
    (calculate_short_term_gain_loss accumulator t =
      if t.holding.isOption = true ∨ heldDays t < 365
      then accumulator + (t.proceed - t.cost) else accumulator) ∧
    (t.holding.isOption = false → heldDays t = 365 →
      calculate_long_term_gain_loss accumulator t = accumulator ∧
      calculate_short_term_gain_loss accumulator t = accumulator) := by
  refine ⟨?_, ?_, ?_⟩
  · unfold calculate_long_term_gain_loss ONE_YEAR
    rcases h : t.holding.isOption with _ | _ <;> simp [h]
  · unfold calculate_short_term_gain_loss ONE_YEAR
    rcases h : t.holding.isOption with _ | _ <;> simp [h]
  · intro hopt hdays
    unfold calculate_long_term_gain_loss calculate_short_term_gain_loss ONE_YEAR
    simp [hopt, hdays]

/-- C1 counterexample: an equity held exactly 365 days with gain 100 is
assigned to neither bucket — both reducers leave the accumulator at 0 —
while the claim says its gain goes to short-term. -/
theorem gain_loss_exact_365_neither :
    heldDays exactYearStock = 365 ∧
    exactYearStock.holding.isOption = false ∧
    exactYearStock.proceed - exactYearStock.cost = 100 ∧
    calculate_short_term_gain_loss 0 exactYearStock = 0 ∧
    calculate_long_term_gain_loss 0 exactYearStock = 0 := by
  refine ⟨by decide, by decide, by norm_num [exactYearStock], ?_, ?_⟩
  · unfold calculate_short_term_gain_loss
    norm_num [exactYearStock, heldDays, ONE_YEAR]
    decide
  · unfold calculate_long_term_gain_loss
    norm_num [exactYearStock, heldDays, ONE_YEAR]
    decide

/-- C1 witness: at the concrete 365-day equity the amended theorem applies
and reproduces the concrete behaviour. -/
theorem gain_loss_classification_witness :
    calculate_long_term_gain_loss 0 exactYearStock = 0 ∧
    calculate_short_term_gain_loss 0 exactYearStock = 0 :=
  (gain_loss_classification 0 exactYearStock).2.2 (by decide) (by decide)

/-! ## Shared string lemmas -/

theorem string_data_append (a b : String) : (a ++ b).data = a.data ++ b.data := by
  cases a
  cases b
  rfl

theorem string_append_left_cancel (a b c : String) (h : a ++ b = a ++ c) :
    b = c := by
  cases a
  cases b
  cases c
  simpa [String.ext_iff] using h

theorem string_mk_data (s : String) : String.mk s.data = s := by
  cases s
  rfl

/-! ## Claim C4: currency parsing -/

/-- C4 counterexample: the parenthesized branch drops the first two
characters, so (50.00) with no dollar sign parses to minus 0.00, not
-50.00; and the empty string raises IndexError instead of producing 0. -/
theorem convert_currency_counterexample :
    convert_currency parenFiftyStr = .ok 0 ∧
    convert_currency emptyStr = .err .indexError := by
  constructor <;> decide

/-- C4 (amended): dollar-prefixed decimals parse positive; the
parenthesized branch strips two leading characters and the trailing one,
so the negative form the code accepts is ($X); a lone dash parses to 0;
the empty string raises IndexError; a decimal out of grammar such as
$1,234.56 raises InvalidOperation; every other first character raises the
MalformedCurrency ValueError. -/
theorem convert_currency_spec :
    (∀ (s : String) (q : ℚ), parseDecimal s.data = .ok q →
      convert_currency (dollarStr ++ s) = .ok q) ∧
    (∀ (s : String) (q : ℚ), parseDecimal s.data = .ok q →
      convert_currency (openParenDollarStr ++ s ++ closeParenStr) = .ok (-q)) ∧
    convert_currency dashStr = .ok 0 ∧
    convert_currency emptyStr = .err .indexError ∧
    convert_currency dollarCommaStr = .err .invalidOperation ∧
    (∀ (s : String) (c : Char) (cs : List Char), s.data = c :: cs →
      c ≠ '$' → c ≠ '(' → s.data ≠ ['-'] → convert_currency s = .err .valueError) := by
  refine ⟨?_, ?_, by decide, by decide, by decide, ?_⟩
  · intro s q h
    unfold convert_currency
    rw [string_data_append]
    simpa [dollarStr, convert_currency_chars] using h
  · intro s q h
    unfold convert_currency
    rw [string_data_append, string_data_append]
    simp [openParenDollarStr, closeParenStr, convert_currency_chars, h]
  · intro s c cs hdata hc1 hc2 hdash
    unfold convert_currency
    rw [hdata]
    rw [hdata] at hdash
    simp [convert_currency_chars, hc1, hc2, hdash]

/-- C4 witness: the amended theorem applied at $50.00 and ($50.00). -/
theorem convert_currency_spec_witness :
    convert_currency (dollarStr ++ fiftyStr) = .ok (mkRat 50 1) ∧
    convert_currency (openParenDollarStr ++ fiftyStr ++ closeParenStr) =
      .ok (-(mkRat 50 1)) :=
  ⟨convert_currency_spec.1 fiftyStr (mkRat 50 1) (by decide),
   convert_currency_spec.2.1 fiftyStr (mkRat 50 1) (by decide)⟩

/-! ## Claims C5, C6: symbol decoding -/

theorem findIdxFrom_append_cons (p : Char → Bool) (l : List Char) (c : Char)
    (r : List Char) (hl : ∀ x ∈ l, p x = false) (hc : p c = true) :
    findIdxFrom p (l ++ c :: r) = some l.length := by
  induction l with
  | nil => simp [findIdxFrom, hc]
  | cons a as ih =>
    have ha : p a = false := hl a (by simp)
    have ih2 := ih fun x hx => hl x (by simp [hx])
    simp [findIdxFrom, ha, ih2]

/-- C5 (amended): a descriptor PRE(ID) whose prefix PRE has its first
digit at index d with 1 ≤ d, an option-type character at index d + 6, a
valid yymmdd block at d..d+5 and a valid decimal strike after d + 6
decodes to the lower-cased root PRE[:d], the identifier ID, the parsed
expiration, the lower-cased option type and the strike.  (When d = 0 the
guard `digit_start and ...` is falsy and the decoder falls into the broken
fallback scan instead; see the counterexample.) -/
theorem extract_symbol_option_spec
    (value : String) (pre id_ : List Char)
    (hval : value.data = pre ++ '(' :: (id_ ++ [')']))
    (hnopre : '(' ∉ pre)
    (d : ℕ) (hd : findIdxFrom Char.isDigit pre = some d)
    (hd1 : d ≠ 0)
    (h6 : d + 6 < pre.length)
    (hc : pre.getD (d + 6) 'A' ∈ OPTION_TYPES)
    (exp : Date) (hexp : parse_yymmdd ((pre.drop d).take 6) = .ok exp)
    (strike : ℚ) (hstrike : parseDecimal (pre.drop (d + 7)) = .ok strike) :
    extract_symbol value =
      .ok ⟨lowerChars (pre.take d), String.mk id_, some exp,
           some ((pre.getD (d + 6) 'A').toLower), some strike⟩ := by
  have hfind : findIdxFrom (fun c => c = '(') (pre ++ '(' :: (id_ ++ [')'])) =
      some pre.length := by
    refine findIdxFrom_append_cons _ _ _ _ ?_ (by simp)
    intro x hx
    simp only [decide_eq_false_iff_not]
    exact fun hxc => hnopre (hxc ▸ hx)
  have htake : (pre ++ '(' :: (id_ ++ [')'])).take pre.length = pre :=
    List.take_left pre _
  have hdrop : (pre ++ '(' :: (id_ ++ [')'])).drop (pre.length + 1) = id_ ++ [')'] := by
    have hsplit : pre ++ '(' :: (id_ ++ [')']) = (pre ++ ['(']) ++ (id_ ++ [')']) := by
      simp
    have hlen : pre.length + 1 = (pre ++ ['(']).length := by simp
    rw [hsplit, hlen, List.drop_left]
  have hgetd : pre.getD (d + 6) 'A' = pre.get ⟨d + 6, h6⟩ := by
    simp [List.getD_eq_getElem?_getD, List.getElem?_eq_getElem h6]
  have hc2 : pre.get ⟨d + 6, h6⟩ ∈ OPTION_TYPES := by rwa [hgetd] at hc
  unfold extract_symbol
  rw [hval, hfind]
  simp [htake, hdrop, hd, hd1, h6, hc2, hexp, hstrike, hgetd]
  intro hn
  exact absurd (by simpa using hc2) hn

/-- C5 counterexample: the descriptor 140620C15.50(CUSIP123), whose first
digit sits at index 0 with a valid option block, is not decoded (the claim
would give root = the empty prefix): the falsy index-0 guard diverts it to
the fallback scan, which raises NameError over the undefined name
OPTIONS_TYPES. -/
theorem extract_symbol_zero_index_counterexample :
    extract_symbol zeroDescriptor = .err .nameError := by decide

/-- C5 witness: the amended theorem applied to ROOT140620C15.50(CUSIP123)
yields root, CUSIP123, call, strike 15.50, expiration 2014-06-20. -/
theorem extract_symbol_option_spec_witness :
    extract_symbol exDescriptor =
      .ok ⟨exRootStr, exIdStr, some ⟨2014, 6, 20⟩, some 'c', some (mkRat 31 2)⟩ := by
  have h := extract_symbol_option_spec exDescriptor exPreStr.data exIdStr.data
    (by decide) (by decide) 4 (by decide) (by decide) (by decide) (by decide)
    ⟨2014, 6, 20⟩ (by decide) (mkRat 31 2) (by decide)
  rw [h]
  decide

/-- C6: a descriptor with a digit but no option-type character does not
raise the MalformedSymbol ValueError: the fallback scan trips over the
undefined name OPTIONS_TYPES, and the resulting NameError is not caught by
the ingestion loop (which skips only ValueError rows), so the batch dies
instead of continuing; a genuine ValueError row, by contrast, is skipped. -/
theorem extract_symbol_malformed_aborts :
    extract_symbol badDescriptor = .err .nameError ∧
    process_rows [extract_symbol badDescriptor, extract_symbol exDescriptor] =
      .err .nameError ∧
    process_rows [Res.err Err.valueError, Res.ok exactYearStock] =
      .ok [exactYearStock] := by
  exact ⟨by decide, by decide, by decide⟩

/-! ## Claim C3: the date-range membership predicate -/

/-- C3: the membership predicate at the specification boundary examples.
An open-start range returns True below its end bound, but raises TypeError
(comparing a date with None in the unguarded third comparison) instead of
returning False above it; an open-end range behaves as specified; a
(None, None) entry returns False immediately, shadowing an exact date
listed alongside it that should still match; and the -220101 token parses
to the open-start range. -/
theorem in_date_range_boundary_eval :
    in_date_range [.range none (some ⟨2022, 1, 1⟩)] ⟨2020, 1, 1⟩ = .ok true ∧
    in_date_range [.range none (some ⟨2022, 1, 1⟩)] ⟨2022, 6, 1⟩ = .err .typeError ∧
    in_date_range [.range (some ⟨2021, 1, 1⟩) none] ⟨2021, 6, 1⟩ = .ok true ∧
    in_date_range [.range (some ⟨2021, 1, 1⟩) none] ⟨2020, 12, 31⟩ = .ok false ∧
    in_date_range [.range none none, .single ⟨2021, 1, 1⟩] ⟨2021, 1, 1⟩ = .ok false ∧
    parse_date dashTwoTwoStr.data = .ok (.range none (some ⟨2022, 1, 1⟩)) := by
  exact ⟨by decide, by decide, by decide, by decide, by decide, by decide⟩

/-! ## Claim C2: wash-sale filtering and report totals -/

theorem entryRanges_transaction_period (dates : List Date) :
    entryRanges (transaction_period dates) =
      dates.map fun de =>
        (some (subDays de DEFAULT_DAY_RANGE), some (addDays de DEFAULT_DAY_RANGE)) := by
  induction dates with
  | nil => rfl
  | cons de rest ih => simp_all [transaction_period, entryRanges, List.filterMap_cons]

theorem entrySingles_transaction_period (dates : List Date) :
    entrySingles (transaction_period dates) = [] := by
  induction dates with
  | nil => rfl
  | cons de rest ih => simp_all [transaction_period, entrySingles, List.filterMap_cons]

theorem scanRanges_transaction_period (dates : List Date) (x : Date) :
    scanRanges x (entryRanges (transaction_period dates)) =
      if dates.any (fun de => dateLe (subDays de DEFAULT_DAY_RANGE) x &&
          dateLe x (addDays de DEFAULT_DAY_RANGE))
      then some (.ok true) else none := by
  rw [entryRanges_transaction_period]
  induction dates with
  | nil => rfl
  | cons de rest ih =>
    rcases h : (dateLe (subDays de DEFAULT_DAY_RANGE) x &&
        dateLe x (addDays de DEFAULT_DAY_RANGE)) with _ | _ <;>
      simp [scanRanges, rangeCheck, h, ih]

/-- The evaluation of the acquired/sold date against the ±30-day windows:
both-bounded ranges can neither raise nor early-return False, so the scan
is an inclusive-window any. -/
theorem in_date_range_windows (dates : List Date) (x : Date) :
    in_date_range (transaction_period dates) x =
      .ok (dates.any fun de => dateLe (subDays de DEFAULT_DAY_RANGE) x &&
        dateLe x (addDays de DEFAULT_DAY_RANGE)) := by
  unfold in_date_range
  rw [scanRanges_transaction_period]
  rcases h : dates.any (fun de => dateLe (subDays de DEFAULT_DAY_RANGE) x &&
      dateLe x (addDays de DEFAULT_DAY_RANGE)) with _ | _ <;>
    simp [h, entrySingles_transaction_period]

theorem group_total_foldl (ts : List (Transaction × Bool)) (a : ℚ) :
    ts.foldl (fun acc p => if p.2 then acc else acc + (p.1.proceed - p.1.cost)) a =
      a + ((ts.filter fun p => !p.2).map fun p => p.1.proceed - p.1.cost).sum := by
  induction ts generalizing a with
  | nil => simp
  | cons p ps ih =>
    rcases hp : p.2 with _ | _ <;> simp [hp, ih, add_assoc]

theorem countEntries_append (a b : List ReportLine) :
    countEntries (a ++ b) = countEntries a + countEntries b := by
  simp [countEntries, List.filter_append]

theorem countEntries_groupLines (sym : String) (ts : List (Transaction × Bool)) :
    countEntries (groupLines sym ts) = ts.length := by
  cases ts with
  | nil => rfl
  | cons t0 rest =>
    simp [groupLines, countEntries, isEntryLine, List.filter_map]

theorem report_foldl_spec (result : List (String × List (Transaction × Bool)))
    (acc : List ReportLine × ℚ) :
    (result.foldl
      (fun acc g =>
        (acc.1 ++ groupLines g.1 g.2 ++ [.subtotal (group_total g.2)],
         acc.2 + group_total g.2)) acc) =
      (acc.1 ++ (result.map fun g =>
          groupLines g.1 g.2 ++ [ReportLine.subtotal (group_total g.2)]).flatten,
       acc.2 + (result.map fun g => group_total g.2).sum) := by
  induction result generalizing acc with
  | nil => simp
  | cons g gs ih =>
    rw [List.foldl_cons, ih]
    simp [List.append_assoc, add_assoc]

/-- C2 (amended): with a non-empty reference-date set, an option
transaction passes the wash-sale date filter iff its expiration is exactly
one of the reference dates (its own dates are never tested against the
±30-day windows), while a non-option passes iff its acquired or sold date
lies in the inclusive ±30-day window around some reference date; and in
the report, wash-sale-flagged rows contribute nothing to the totals while
every row, flagged or not, is listed. -/
theorem wash_sale_filter_spec (filtered_dates : List Date) (t : Transaction)
    (hne : filtered_dates ≠ []) :
    (∀ s k e, t.holding = .call s k e ∨ t.holding = .put s k e →
      (transaction_in_filtered_date filtered_dates t = .ok true ↔
        e ∈ filtered_dates)) ∧
    (∀ s, t.holding = .stock s →
      (transaction_in_filtered_date filtered_dates t = .ok true ↔
        ∃ de ∈ filtered_dates,
          (dateLe (subDays de DEFAULT_DAY_RANGE) t.acquired_date ∧
            dateLe t.acquired_date (addDays de DEFAULT_DAY_RANGE)) ∨
          (dateLe (subDays de DEFAULT_DAY_RANGE) t.sold_date ∧
            dateLe t.sold_date (addDays de DEFAULT_DAY_RANGE)))) ∧
    (∀ ts : List (Transaction × Bool),
      group_total ts =
        ((ts.filter fun p => !p.2).map fun p => p.1.proceed - p.1.cost).sum) ∧
    (∀ result : List (String × List (Transaction × Bool)),
      countEntries (report_in_text result) = (result.map fun g => g.2.length).sum ∧
      (report_in_text result).getLast? =
        some (.grandTotal ((result.map fun g => group_total g.2).sum))) := by
  have hie : filtered_dates.isEmpty = false := by
    cases filtered_dates with
    | nil => exact absurd rfl hne
    | cons a l => rfl
  refine ⟨?_, ?_, ?_, ?_⟩
  · rintro s k e (h | h) <;>
      simp [transaction_in_filtered_date, hie, h]
  · intro s hs
    have hmain : transaction_in_filtered_date filtered_dates t =
        .ok ((filtered_dates.any fun de =>
            dateLe (subDays de DEFAULT_DAY_RANGE) t.acquired_date &&
            dateLe t.acquired_date (addDays de DEFAULT_DAY_RANGE)) ||
          (filtered_dates.any fun de =>
            dateLe (subDays de DEFAULT_DAY_RANGE) t.sold_date &&
            dateLe t.sold_date (addDays de DEFAULT_DAY_RANGE))) := by
      unfold transaction_in_filtered_date
      rw [hie, hs]
      simp only [Bool.false_eq_true, if_false]
      rw [in_date_range_windows, in_date_range_windows]
      rcases hA : (filtered_dates.any fun de =>
          dateLe (subDays de DEFAULT_DAY_RANGE) t.acquired_date &&
          dateLe t.acquired_date (addDays de DEFAULT_DAY_RANGE)) with _ | _ <;>
        simp [hA]
    rw [hmain]
    simp only [Res.ok.injEq, Bool.or_eq_true, List.any_eq_true, Bool.and_eq_true]
    constructor
    · rintro (⟨de, hde, h1, h2⟩ | ⟨de, hde, h1, h2⟩)
      · exact ⟨de, hde, Or.inl ⟨h1, h2⟩⟩
      · exact ⟨de, hde, Or.inr ⟨h1, h2⟩⟩
    · rintro ⟨de, hde, (⟨h1, h2⟩ | ⟨h1, h2⟩)⟩
      · exact Or.inl ⟨de, hde, h1, h2⟩
      · exact Or.inr ⟨de, hde, h1, h2⟩
  · intro ts
    simpa [group_total] using group_total_foldl ts 0
  · intro result
    unfold report_in_text
    rw [report_foldl_spec]
    simp only [List.nil_append, zero_add]
    constructor
    · have hjoin : ∀ gs : List (String × List (Transaction × Bool)),
          countEntries ((gs.map fun g =>
            groupLines g.1 g.2 ++ [ReportLine.subtotal (group_total g.2)]).flatten) =
            (gs.map fun g => g.2.length).sum := by
        intro gs
        induction gs with
        | nil => rfl
        | cons g rest ih =>
          rw [List.map_cons, List.flatten_cons, countEntries_append,
            countEntries_append, countEntries_groupLines, ih]
          simp [countEntries, isEntryLine]
      rw [countEntries_append, hjoin result]
      simp [countEntries, isEntryLine]
    · simp

/-- C2 counterexample: an option sold five days after the reference date —
inside the ±30-day window, so the claim says it is flagged — is not
matched, because for options only the exact expiration filter is
consulted. -/
theorem wash_sale_option_window_counterexample :
    transaction_in_filtered_date washDates washOption = .ok false ∧
    dateLe (subDays ⟨2021, 6, 15⟩ DEFAULT_DAY_RANGE) washOption.sold_date = true ∧
    dateLe washOption.sold_date (addDays ⟨2021, 6, 15⟩ DEFAULT_DAY_RANGE) = true := by
  exact ⟨by decide, by decide, by decide⟩

/-- C2 witness: the equity sold 2021-06-20 with reference date 2021-06-15
is matched by the window filter, via the amended theorem. -/
theorem wash_sale_filter_spec_witness :
    transaction_in_filtered_date washDates washStock = .ok true :=
  ((wash_sale_filter_spec washDates washStock (by decide)).2.1 _ rfl).mpr
    (by decide)

/-! ## Claim C8: idempotent insertion into the trade store -/

/-- C8: running the insertion of the same trade batch a second time
against the store produced by the first run changes nothing: every id of
the batch is by then among the stored ids, so the dedup filter empties the
second insert set — silently, with no error. -/
theorem insert_transactions_idempotent (store ts : List Trade) :
    insert_to_db (insert_to_db store ts) ts = insert_to_db store ts := by
  unfold insert_to_db
  have hall : ∀ t ∈ ts,
      t.transaction_id ∈ ((store ++ ts.filter fun u =>
        !((store.map Trade.transaction_id).contains u.transaction_id)).map
          Trade.transaction_id) := by
    intro t ht
    rw [List.map_append, List.mem_append]
    by_cases h : t.transaction_id ∈ store.map Trade.transaction_id
    · exact Or.inl h
    · refine Or.inr (List.mem_map.mpr ⟨t, List.mem_filter.mpr ⟨ht, ?_⟩, rfl⟩)
      simpa using h
  have hcontains : ∀ (l : List String) (a : String), a ∈ l → l.contains a = true :=
    fun l a h => by simpa using h
  have h2 : (ts.filter fun t =>
      !(((store ++ ts.filter fun u =>
        !((store.map Trade.transaction_id).contains u.transaction_id)).map
          Trade.transaction_id).contains t.transaction_id)) = [] := by
    rw [List.filter_eq_nil_iff]
    intro t ht hcontra
    rw [hcontains _ _ (hall t ht)] at hcontra
    simp at hcontra
  simp only [h2, List.append_nil]

/-! ## Claim C9: filter values are interpolated verbatim -/

/-- C9: the symbol and account filter builders interpolate the
user-supplied value into the query string verbatim, with no escaping or
parameterization: a value carrying single quotes lands unaltered inside
the quoted literal and changes the shape of the compiled query (here
smuggling an extra OR disjunct into both filters). -/
theorem sql_filter_injection :
    new_symbols_filter_sql injSymbols = injSymbolsOut ∧
    new_account_filter_sql injAccount = injAccountOut := by
  exact ⟨by decide, by decide⟩

/-! ## Claim C10: the scaled-integer round trip -/

/-- Scaling by 100 with int() truncation and dividing back by 100 is the
identity exactly on values that are whole numbers of cents. -/
theorem cents_exact_iff (q : ℚ) :
    ((pyInt (q * 100) : ℚ) / 100 = q) ↔ (q * 100).den = 1 := by
  constructor
  · intro h
    have h2 : ((pyInt (q * 100) : ℚ)) = q * 100 := by
      rw [div_eq_iff (by norm_num : (100 : ℚ) ≠ 0)] at h
      exact h
    rw [← h2, Rat.den_intCast]
  · intro h
    have hint : ((q * 100).num : ℚ) = q * 100 := by
      conv_rhs => rw [← Rat.num_div_den (q * 100)]
      rw [h]
      norm_num
    have hpy : pyInt (q * 100) = (q * 100).num := by
      unfold pyInt
      rw [h]
      norm_num [Int.tdiv_one]
    rw [hpy, hint, mul_div_assoc]
    norm_num

/-- C10: decoding after encoding (trade_to_transaction after the
stock_to_trade / option_to_trade dispatch) is the identity on a
transaction exactly when quantity, cost, proceed — and, for an option, the
strike — are integer multiples of 0.01 (multiplying by 100 leaves no
fractional part); sub-cent precision is truncated away otherwise. -/
theorem trade_round_trip_spec (t : Transaction) :
    trade_round_trip t = .ok t ↔
      ((t.quantity * 100).den = 1 ∧ (t.cost * 100).den = 1 ∧
        (t.proceed * 100).den = 1 ∧
        ∀ s k e, (t.holding = .call s k e ∨ t.holding = .put s k e) →
          (k * 100).den = 1) := by
  obtain ⟨acct, hold, cus, desc, qty, ad, sd, cost, proc, tid⟩ := t
  rcases hold with s | ⟨s, k, e⟩ | ⟨s, k, e⟩ <;>
    simp [trade_round_trip, trade_from_transaction, stock_to_trade, option_to_trade,
      trade_to_transaction, Holding.symbol, _to_decimal, cents_exact_iff]
  · rw [if_neg (by decide)]
    simp [cents_exact_iff]
    tauto
  · rw [if_neg (by decide), if_neg (by decide)]
    simp [cents_exact_iff]
    tauto

/-! ## Claim C7: transaction id generation -/

theorem digitsVal_concat (l : List Char) (c : Char) :
    digitsVal (l ++ [c]) = 10 * digitsVal l + charVal c := by
  unfold digitsVal
  rw [List.foldl_append]
  rfl

theorem charVal_digitChar (n : ℕ) (h : n < 10) : charVal (digitChar n) = n := by
  interval_cases n <;> decide

theorem digitsVal_printNatAux (fuel : ℕ) : ∀ n, n < 10 ^ fuel →
    digitsVal (printNatAux fuel n) = n := by
  induction fuel with
  | zero =>
    intro n h
    have hn : n = 0 := by simpa using h
    subst hn
    rfl
  | succ fuel ih =>
    intro n h
    by_cases h10 : n < 10
    · rw [printNatAux, if_pos h10]
      show 10 * 0 + charVal (digitChar n) = n
      rw [charVal_digitChar n h10]
      omega
    · rw [printNatAux, if_neg h10, digitsVal_concat]
      have hdiv : n / 10 < 10 ^ fuel := by
        rw [Nat.div_lt_iff_lt_mul (by norm_num)]
        calc n < 10 ^ (fuel + 1) := h
        _ = 10 ^ fuel * 10 := by ring
      rw [ih (n / 10) hdiv, charVal_digitChar (n % 10) (Nat.mod_lt n (by norm_num))]
      omega

theorem digitsVal_printNat (n : ℕ) : digitsVal (printNat n) = n := by
  refine digitsVal_printNatAux (n + 1) n ?_
  calc n < 10 ^ n := Nat.lt_pow_self (by norm_num) n
  _ ≤ 10 ^ (n + 1) := Nat.pow_le_pow_right (by norm_num) (by omega)

theorem digitsVal_pad2 (n : ℕ) : digitsVal (pad2 n) = n := by
  unfold pad2
  by_cases h : n < 10
  · rw [if_pos h]
    show List.foldl (fun a c => 10 * a + charVal c) 0 ('0' :: printNat n) = n
    rw [List.foldl_cons]
    have h0 : 10 * 0 + charVal '0' = 0 := rfl
    rw [h0]
    exact digitsVal_printNat n
  · rw [if_neg h]
    exact digitsVal_printNat n

theorem seqFmt_inj (m n : ℕ) (h : String.mk (seqFmt m) = String.mk (seqFmt n)) :
    m = n := by
  have h2 : seqFmt m = seqFmt n := by
    have := congrArg String.data h
    simpa using this
  have h3 := congrArg digitsVal h2
  simpa [seqFmt, digitsVal_pad2] using h3

theorem runIdsAux_length (reg : List String) (ts : List Transaction) :
    (runIdsAux reg ts).length = ts.length := by
  induction ts generalizing reg with
  | nil => rfl
  | cons t rest ih => simp [runIdsAux, generate_id, ih]

/-- Each id issued over a run carries the key of its row and the number of
occurrences of that key seen so far (the per-key counter), offset by the
occurrences already present in the starting registry. -/
theorem runIdsAux_getD (ts : List Transaction) (reg : List String) (i : ℕ)
    (hi : i < ts.length) :
    (runIdsAux reg ts).getD i emptyStr =
      uuid3 (transactionKey (ts.getD i dummyTransaction) ++ dashStr ++
        String.mk (seqFmt
          (reg.count (transactionKey (ts.getD i dummyTransaction)) +
           ((ts.take (i + 1)).map transactionKey).count
             (transactionKey (ts.getD i dummyTransaction))))) := by
  induction ts generalizing reg i with
  | nil => simp at hi
  | cons t rest ih =>
    cases i with
    | zero =>
      simp [runIdsAux, generate_id, List.count_cons, List.take]
    | succ i =>
      have hi' : i < rest.length := by simpa using hi
      have step := ih (reg ++ [transactionKey t]) i hi'
      have hstep : (runIdsAux reg (t :: rest)).getD (i + 1) emptyStr =
          (runIdsAux (reg ++ [transactionKey t]) rest).getD i emptyStr := rfl
      have hgd : (t :: rest).getD (i + 1) dummyTransaction =
          rest.getD i dummyTransaction := rfl
      rw [hstep, step, hgd]
      simp [List.count_append, List.take_succ_cons, List.count_cons,
        Nat.add_comm, Nat.add_assoc, Nat.add_left_comm]

theorem count_take_strict (l : List String) (i j : ℕ) (hij : i < j)
    (hj : j < l.length) :
    (l.take (i + 1)).count (l.getD j emptyStr) <
      (l.take (j + 1)).count (l.getD j emptyStr) := by
  have h1 : (l.take (i + 1)).count (l.getD j emptyStr) ≤
      (l.take j).count (l.getD j emptyStr) := by
    have hsub : l.take (i + 1) = (l.take j).take (i + 1) := by
      rw [List.take_take, min_eq_left (by omega)]
    rw [hsub]
    exact List.Sublist.count_le (List.take_sublist _ _) _
  have h2 : l.take (j + 1) = l.take j ++ [l.get ⟨j, hj⟩] := by
    rw [List.take_succ]
    simp [List.getElem?_eq_getElem hj]
  have h3 : l.getD j emptyStr = l.get ⟨j, hj⟩ := by
    simp [List.getD_eq_getElem?_getD, List.getElem?_eq_getElem hj]
  rw [h2, List.count_append]
  have h4 : [l.get ⟨j, hj⟩].count (l.getD j emptyStr) = 1 := by
    rw [h3]
    simp
  omega

/-- C7 (amended): over one run the ids are a pure function of the row
sequence (the registry is rebuilt empty, so re-running the same sequence
reproduces them); the j-th id is the uuid3 of the row key joined with the
per-key occurrence count of that key up to j; and two rows with identical
(account, cusip, acquired, sold, quantity, cost, proceed) tuples always
share a key and therefore receive distinct sequence numbers and distinct
ids.  (The counter is keyed on the formatted key string, not on the tuple:
distinct tuples may collide on it — see the counterexample.) -/
theorem new_transaction_id_spec (ts : List Transaction) (i j : ℕ)
    (hi : i < ts.length) (hj : j < ts.length) (hij : i < j)
    (htuple : idTuple (ts.getD i dummyTransaction) =
      idTuple (ts.getD j dummyTransaction)) :
    (runIds ts).length = ts.length ∧
    (runIds ts).getD j emptyStr =
      uuid3 (transactionKey (ts.getD j dummyTransaction) ++ dashStr ++
        String.mk (seqFmt (((ts.take (j + 1)).map transactionKey).count
          (transactionKey (ts.getD j dummyTransaction))))) ∧
    (runIds ts).getD i emptyStr ≠ (runIds ts).getD j emptyStr := by
  have hkey : transactionKey (ts.getD i dummyTransaction) =
      transactionKey (ts.getD j dummyTransaction) := by
    simp only [idTuple, Prod.mk.injEq] at htuple
    obtain ⟨h1, h2, h3, h4, h5, h6, h7⟩ := htuple
    unfold transactionKey
    rw [h1, h2, h3, h4, h5, h6, h7]
  have hgi := runIdsAux_getD ts [] i hi
  have hgj := runIdsAux_getD ts [] j hj
  simp only [List.count_nil, Nat.zero_add] at hgi hgj
  refine ⟨runIdsAux_length [] ts, hgj, ?_⟩
  intro hcontra
  rw [runIds] at hcontra
  rw [hgi, hgj, hkey] at hcontra
  unfold uuid3 at hcontra
  have hseq := string_append_left_cancel _ _ _ hcontra
  have hcount := seqFmt_inj _ _ hseq
  have hmapi : ((ts.take (i + 1)).map transactionKey) =
      (ts.map transactionKey).take (i + 1) := List.map_take ..
  have hmapj : ((ts.take (j + 1)).map transactionKey) =
      (ts.map transactionKey).take (j + 1) := List.map_take ..
  have hksj : (ts.map transactionKey).getD j emptyStr =
      transactionKey (ts.getD j dummyTransaction) := by
    simp [List.getD_eq_getElem?_getD,
      List.getElem?_eq_getElem hj,
      List.getElem?_eq_getElem (by simpa using hj : j < (ts.map transactionKey).length)]
  rw [hmapi, hmapj, ← hksj] at hcount
  have hstrict := count_take_strict (ts.map transactionKey) i j hij
    (by simpa using hj)
  omega

/-- C7 counterexample: the counter is keyed on the formatted string, whose
{:.2f} fields round to two decimals, so two rows with different tuples
(quantities 1.001 and 1.004) share one key; a third row identical to the
first is then the second occurrence of its tuple yet receives sequence
number 03, not 02 as the claim says. -/
theorem new_transaction_id_counterexample :
    idTuple keyCollideA ≠ idTuple keyCollideB ∧
    transactionKey keyCollideA = transactionKey keyCollideB ∧
    (runIds [keyCollideA, keyCollideB, keyCollideA]).getD 2 emptyStr =
      uuid3 (transactionKey keyCollideA ++ dashStr ++ String.mk (seqFmt 3)) ∧
    (runIds [keyCollideA, keyCollideB, keyCollideA]).getD 2 emptyStr ≠
      uuid3 (transactionKey keyCollideA ++ dashStr ++ String.mk (seqFmt 2)) := by
  exact ⟨by decide, by decide, by decide, by decide⟩

/-- C7 witness: two identical rows receive distinct ids, via the amended
theorem at a concrete two-row run. -/
theorem new_transaction_id_spec_witness :
    (runIds [exactYearStock, exactYearStock]).getD 0 emptyStr ≠
      (runIds [exactYearStock, exactYearStock]).getD 1 emptyStr :=
  (new_transaction_id_spec [exactYearStock, exactYearStock] 0 1 (by decide)
    (by decide) (by decide) rfl).2.2

end MyTrades
